import Mathlib

/-!
Verification development for the knowledge-graph construction and embedding
subsystem of the repository (files `kg_builder.py`, `embedding_store.py`,
`kag_builder/kg_construction.py`).

Python records (the `Entity`/`Relationship` classes are declared as
`Dict[str, Any]` subclasses) are embedded as insertion-ordered association
lists over string keys.  Attribute values are JSON-like values with one level
of object nesting, which covers the data model used by the code (a record maps
string keys to primitives or to one flat attribute map).  Per the declared
record types, `id`, `source_entity_id`, `target_entity_id`, `text` and `label`
fields hold strings; a non-string value in such a field is rendered through
its Python `str` form where the code interpolates it.
-/

/-- A primitive JSON/Python value (attribute values in the data model). -/
inductive JPrim where
  | pnull : JPrim
  | pbool : Bool → JPrim
  | pnum : Int → JPrim
  | pstr : String → JPrim
deriving DecidableEq, Repr

/-- A field value of a record: a primitive, or one flat string-keyed map
(the `attributes` dict of an entity/relationship). -/
inductive JValue where
  | prim : JPrim → JValue
  | obj : List (String × JPrim) → JValue
deriving DecidableEq, Repr

/-- A Python dict with string keys, as an insertion-ordered association list.
Well-formed dicts have no duplicate keys. -/
abbrev PyDict := List (String × JValue)

/-- Lookup in an association list (Python `d.get(k)` / `k in d`). -/
def aget {α : Type} : List (String × α) → String → Option α
  | [], _ => none
  | (k', v) :: rest, k => if k' = k then some v else aget rest k

/-- Python `d[k] = v`: replace the value in place if the key exists
(keeping its position), otherwise append the new binding at the end. -/
def aset {α : Type} : List (String × α) → String → α → List (String × α)
  | [], k, v => [(k, v)]
  | (k', v') :: rest, k, v =>
      if k' = k then (k, v) :: rest else (k', v') :: aset rest k v

/-- Python `d.update(e)`: set every binding of `e` into `d`, in order. -/
def pyUpdate {α : Type} (d e : List (String × α)) : List (String × α) :=
  e.foldl (fun acc kv => aset acc kv.1 kv.2) d

/-- Python `d[k]`, raising `KeyError` when the key is absent. -/
def pyItem (d : PyDict) (k : String) : Except String JValue :=
  match aget d k with
  | some v => .ok v
  | none => .error ("KeyError: " ++ k)

/-- Python truthiness of a field value. -/
def truthy : JValue → Bool
  | .prim .pnull => false
  | .prim (.pbool b) => b
  | .prim (.pnum n) => decide (n ≠ 0)
  | .prim (.pstr s) => decide (s ≠ "")
  | .obj kvs => !kvs.isEmpty

/-- Python truthiness of the result of `d.get(k)` (absent key gives `None`). -/
def truthyOpt : Option JValue → Bool
  | none => false
  | some v => truthy v

/-- Python `str(p)` on a primitive. -/
def pyStrPrim : JPrim → String
  | .pnull => "None"
  | .pbool true => "True"
  | .pbool false => "False"
  | .pnum n => toString n
  | .pstr s => s

/-- Python `repr` of a flat dict, used only when a dict value is interpolated
into an f-string (outside the declared data model). -/
def pyReprDict (kvs : List (String × JPrim)) : String :=
  "\x7b" ++ String.intercalate ", "
    (kvs.map (fun kv => "'" ++ kv.1 ++ "': " ++ pyStrPrim kv.2)) ++ "\x7d"

/-- Python `str(v)` on a field value. -/
def pyStrVal : JValue → String
  | .prim p => pyStrPrim p
  | .obj kvs => pyReprDict kvs

/-- Python `str` of an optional value, as an f-string renders it
(`None` for an absent key). -/
def pyStrOpt : Option JValue → String
  | none => "None"
  | some v => pyStrVal v

/-- The dictionary key denoted by an id-valued field.  Ids are strings per the
declared `Entity`/`Relationship` record types; a non-string value falls back
to its string rendering. -/
def idKey : JValue → String
  | .prim (.pstr s) => s
  | v => pyStrVal v

/-- Python f-string rendering with default: `d.get(k, dflt)` interpolated. -/
def getStrD (d : PyDict) (k : String) (dflt : String) : String :=
  match aget d k with
  | some v => pyStrVal v
  | none => dflt

/-! ### `kg_builder.py`: `MockLightRAGKnowledgeGraph` and the batch functions -/

/-- State of a `MockLightRAGKnowledgeGraph`: the node and edge dicts and the
session's touched-node-id set (`_temp_node_ids`, modelled as a duplicate-free
list with set semantics). -/
structure KGStore where
  nodes : List (String × PyDict)
  edges : List (String × PyDict)
  temp_node_ids : List String
deriving DecidableEq, Repr

/-- The empty store produced by `MockLightRAGKnowledgeGraph.__init__`. -/
def KGStore.init : KGStore := ⟨[], [], []⟩

/-- `set.add`: insert an element if not already present. -/
def insertOnce (l : List String) (x : String) : List String :=
  if x ∈ l then l else l ++ [x]

/-- `MockLightRAGKnowledgeGraph.add_node` (kg_builder.py lines 40-54).
Returns the updated store, the resolved node id, and the caller's entity
record as the call leaves it (the record is mutated in place when an id is
generated; `self.nodes[node_id] = entity.copy()` stores a copy, which in this
pure embedding is the record value itself). -/
def add_node (s : KGStore) (entity : PyDict) : KGStore × String × PyDict :=
  let (node_id, ent) :=
    if truthyOpt (aget entity "id") then
      (idKey ((aget entity "id").getD (JValue.prim JPrim.pnull)), entity)
    else
      let nid := "node_" ++ toString (s.nodes.length + 1)
      (nid, aset entity "id" (JValue.prim (JPrim.pstr nid)))
  let nodes' :=
    match aget s.nodes node_id with
    | some old => aset s.nodes node_id (pyUpdate old ent)
    | none => aset s.nodes node_id ent
  ({ s with nodes := nodes', temp_node_ids := insertOnce s.temp_node_ids node_id },
   node_id, ent)

/-- `source_id in self.nodes or source_id in self._temp_node_ids`
(an absent field gives `None`, which is in neither collection). -/
def endpointPresent (s : KGStore) : Option JValue → Bool
  | none => false
  | some v => (aget s.nodes (idKey v)).isSome || s.temp_node_ids.contains (idKey v)

/-- `MockLightRAGKnowledgeGraph.add_edge` (kg_builder.py lines 56-80).
On a missing endpoint it raises `ValueError` with the message built by the
code; the store is unchanged in that case (the raise happens before
`self.edges` is touched), which the caller models by keeping its prior
store.  On success it returns the updated store, the edge id, and the
relationship record as the call leaves it. -/
def add_edge (s : KGStore) (rel : PyDict) : Except String (KGStore × String × PyDict) :=
  let source_id := aget rel "source_entity_id"
  let target_id := aget rel "target_entity_id"
  let (edge_id, r) :=
    if truthyOpt (aget rel "id") then
      (idKey ((aget rel "id").getD (JValue.prim JPrim.pnull)), rel)
    else
      let eid := "edge_" ++ toString (s.edges.length + 1)
      (eid, aset rel "id" (JValue.prim (JPrim.pstr eid)))
  if ¬ endpointPresent s source_id then
    .error ("Source node " ++ pyStrOpt source_id ++ " not found.")
  else if ¬ endpointPresent s target_id then
    .error ("Target node " ++ pyStrOpt target_id ++ " not found.")
  else
    let edges' :=
      match aget s.edges edge_id with
      | some old => aset s.edges edge_id (pyUpdate old r)
      | none => aset s.edges edge_id r
    .ok ({ s with edges := edges' }, edge_id, r)

/-- `MockLightRAGKnowledgeGraph.clear_session_tracking` (lines 85-87). -/
def clear_session_tracking (s : KGStore) : KGStore :=
  { s with temp_node_ids := [] }

/-- `add_entities_to_graph` (kg_builder.py lines 99-121): each entity is added
inside a `try`/`except`; `add_node` is total on dict records, so every entity
contributes its id. -/
def add_entities_to_graph (s : KGStore) (entities : List PyDict) :
    KGStore × List String :=
  entities.foldl
    (fun acc e =>
      let (s', nid, _) := add_node acc.1 e
      (s', acc.2 ++ [nid]))
    (s, [])

/-- `add_relationships_to_graph` (kg_builder.py lines 123-147): each
relationship is added inside a `try`/`except`; a `ValueError` from a missing
endpoint is caught, logged and the item skipped, and the loop continues. -/
def add_relationships_to_graph (s : KGStore) (rels : List PyDict) :
    KGStore × List String :=
  rels.foldl
    (fun acc r =>
      match add_edge acc.1 r with
      | .ok (s', eid, _) => (s', acc.2 ++ [eid])
      | .error _ => acc)
    (s, [])

/-- Result record of `build_or_update_graph`. -/
structure BuildResult where
  added_nodes : List String
  added_edges : List String
deriving DecidableEq, Repr

/-- `build_or_update_graph` (kg_builder.py lines 149-165), for an available
store: clear session tracking, add all entities, then add all relationships. -/
def build_or_update_graph (s : KGStore) (entities rels : List PyDict) :
    KGStore × BuildResult :=
  let s0 := clear_session_tracking s
  let (s1, nids) := add_entities_to_graph s0 entities
  let (s2, eids) := add_relationships_to_graph s1 rels
  (s2, ⟨nids, eids⟩)

/-! ### `kag_builder/kg_construction.py`: `create_kg` -/

/-- A `networkx.MultiDiGraph` as `create_kg` uses it: node attribute dicts
keyed by node id, and a list of directed multi-edges with attribute dicts. -/
structure NXGraph where
  nodes : List (String × PyDict)
  edges : List (String × String × PyDict)
deriving DecidableEq, Repr

/-- One iteration of the entity loop of `create_kg` (lines 27-42): the node id
is `entity_dict["text"]` (raising `KeyError` when absent); the remaining keys
become node attributes; an existing node has each attribute key set to the new
value (the code skips the write when the stored value is already equal, which
leaves the same dict). -/
def kgAddEntity (g : NXGraph) (e : PyDict) : Except String NXGraph := do
  let tv ← pyItem e "text"
  let node_id := idKey tv
  let attrs := e.filter (fun kv => kv.1 ≠ "text")
  match aget g.nodes node_id with
  | none => pure { g with nodes := aset g.nodes node_id attrs }
  | some old => pure { g with nodes := aset g.nodes node_id (pyUpdate old attrs) }

/-- One iteration of the relation loop of `create_kg` (lines 46-64): reads
`entity1_text`, `entity2_text` and `type` by subscript, keeps the remaining
keys plus `type` as edge attributes, and appends the multi-edge only when both
endpoint nodes exist (otherwise it prints a warning and skips). -/
def kgAddRelation (g : NXGraph) (r : PyDict) : Except String NXGraph := do
  let sv ← pyItem r "entity1_text"
  let tv ← pyItem r "entity2_text"
  let ty ← pyItem r "type"
  let src := idKey sv
  let tgt := idKey tv
  let eattrs :=
    aset (r.filter (fun kv =>
      kv.1 ≠ "entity1_text" && kv.1 ≠ "entity2_text" && kv.1 ≠ "type")) "type" ty
  if (aget g.nodes src).isSome && (aget g.nodes tgt).isSome then
    pure { g with edges := g.edges ++ [(src, tgt, eattrs)] }
  else
    pure g

/-- `create_kg` (kg_construction.py lines 5-66). -/
def create_kg (entities relations : List PyDict) : Except String NXGraph := do
  let g ← entities.foldlM kgAddEntity ⟨[], []⟩
  relations.foldlM kgAddRelation g

/-! ### `embedding_store.py`: description synthesis and `store_embeddings` -/

/-- JSON escaping of a string as `json.dumps` renders it (quote and backslash;
other characters of the data in this repository pass through unchanged). -/
def jsonEscape (s : String) : String :=
  s.data.foldl
    (fun acc c =>
      if c = '"' then acc ++ "\\\""
      else if c = '\\' then acc ++ "\\\\"
      else acc.push c) ""

/-- `json.dumps` of a primitive value. -/
def jsonOfPrim : JPrim → String
  | .pnull => "null"
  | .pbool true => "true"
  | .pbool false => "false"
  | .pnum n => toString n
  | .pstr s => "\"" ++ jsonEscape s ++ "\""

/-- Lexicographic (code-point) comparison of character lists: the string order
`sort_keys=True` sorts by. -/
def charsLe : List Char → List Char → Bool
  | [], _ => true
  | _ :: _, [] => false
  | a :: as, b :: bs => if a = b then charsLe as bs else decide (a < b)

/-- Python string comparison used by `json.dumps(..., sort_keys=True)`. -/
def strLe (a b : String) : Bool := charsLe a.data b.data

/-- Sort an attribute list by key (the effect of `sort_keys=True`). -/
def sortByKey (kvs : List (String × JPrim)) : List (String × JPrim) :=
  List.insertionSort (fun a b => strLe a.1 b.1 = true) kvs

/-- `json.dumps(obj, sort_keys=True)` for a flat object. -/
def jsonDumpsObj (kvs : List (String × JPrim)) : String :=
  "\x7b" ++ String.intercalate ", "
    ((sortByKey kvs).map
      (fun kv => "\"" ++ jsonEscape kv.1 ++ "\": " ++ jsonOfPrim kv.2)) ++ "\x7d"

/-- `json.dumps(v, sort_keys=True)` for any field value. -/
def jsonDumps : JValue → String
  | .prim p => jsonOfPrim p
  | .obj kvs => jsonDumpsObj kvs

/-- `_create_entity_description` (embedding_store.py lines 106-113). -/
def createEntityDescription (entity : PyDict) : String :=
  let description :=
    "Entity: " ++ getStrD entity "text" "Unnamed Entity" ++
    " (Type: " ++ getStrD entity "label" "Unknown" ++ ")"
  match aget entity "attributes" with
  | none => description
  | some (.prim .pnull) => description
  | some v => description ++ "\nAttributes: " ++ jsonDumps v

/-- `_create_relationship_description` (embedding_store.py lines 115-136).
The subscripts `relationship["source_entity_id"]` and
`relationship["target_entity_id"]` raise `KeyError` when absent; a failed
lookup in `entities_map` (or an entity lacking `text`) falls back to the
literal placeholders. -/
def createRelationshipDescription (rel : PyDict)
    (entities_map : List (String × PyDict)) : Except String String := do
  let sv ← pyItem rel "source_entity_id"
  let source_entity_text :=
    match aget entities_map (idKey sv) with
    | some se => getStrD se "text" "Unknown Source Entity"
    | none => "Unknown Source Entity"
  let tv ← pyItem rel "target_entity_id"
  let target_entity_text :=
    match aget entities_map (idKey tv) with
    | some te => getStrD te "text" "Unknown Target Entity"
    | none => "Unknown Target Entity"
  let description :=
    "Relationship: '" ++ source_entity_text ++ "' " ++
    getStrD rel "label" "RELATED_TO" ++ " '" ++ target_entity_text ++
    "'. (ID: " ++ pyStrOpt (aget rel "id") ++ ")"
  if truthyOpt (aget rel "attributes") then
    match aget rel "attributes" with
    | some v => pure (description ++ "\nAttributes: " ++ jsonDumps v)
    | none => pure description
  else
    pure description

/-- Decidable equality for `Except`, so concrete runs can be settled by
`decide`. -/
def exceptDecEq {ε α : Type} [DecidableEq ε] [DecidableEq α] :
    DecidableEq (Except ε α)
  | .error e, .error f =>
    if h : e = f then .isTrue (by rw [h])
    else .isFalse (fun hh => h (by cases hh; rfl))
  | .error _, .ok _ => .isFalse (fun hh => Except.noConfusion hh)
  | .ok _, .error _ => .isFalse (fun hh => Except.noConfusion hh)
  | .ok x, .ok y =>
    if h : x = y then .isTrue (by rw [h])
    else .isFalse (fun hh => h (by cases hh; rfl))

instance {ε α : Type} [DecidableEq ε] [DecidableEq α] :
    DecidableEq (Except ε α) := exceptDecEq

/-- A record submitted to the vector store by `store_embeddings`. -/
structure DBItem where
  id : String
  text_description : String
  vector : List Int
  metadata : List (String × JValue)
deriving DecidableEq, Repr

/-- The per-kind counts returned by `store_embeddings`. -/
structure StoreCounts where
  entities_processed : Nat
  relationships_processed : Nat
deriving DecidableEq, Repr

/-- `zip(a, b, c)` truncating to the shortest input. -/
def zip3 {α β γ : Type} : List α → List β → List γ → List (α × β × γ)
  | a :: as, b :: bs, c :: cs => (a, b, c) :: zip3 as bs cs
  | _, _, _ => []

/-- The entity assembly loop of `store_embeddings` (lines 162-169), which runs
inside the `try`: each item appends one record and bumps the count;
`entity["id"]` raising `KeyError` aborts the loop, keeping what was appended
so far (the exception is caught by the surrounding `except`). -/
def assembleEntityItems : List (PyDict × String × List Int) → List DBItem × Nat
  | [] => ([], 0)
  | (e, t, v) :: rest =>
    match aget e "id" with
    | none => ([], 0)
    | some idv =>
      let item : DBItem :=
        { id := "entity_" ++ pyStrVal idv
          text_description := t
          vector := v
          metadata :=
            [("type", .prim (.pstr "entity")), ("original_id", idv),
             ("label", (aget e "label").getD (.prim .pnull))] }
      let (restItems, restCount) := assembleEntityItems rest
      (item :: restItems, restCount + 1)

/-- The relationship assembly loop of `store_embeddings` (lines 184-197). -/
def assembleRelationshipItems :
    List (PyDict × String × List Int) → List DBItem × Nat
  | [] => ([], 0)
  | (r, t, v) :: rest =>
    match aget r "id" with
    | none => ([], 0)
    | some idv =>
      let item : DBItem :=
        { id := "relationship_" ++ pyStrVal idv
          text_description := t
          vector := v
          metadata :=
            [("type", .prim (.pstr "relationship")), ("original_id", idv),
             ("label", (aget r "label").getD (.prim .pnull)),
             ("source_id", (aget r "source_entity_id").getD (.prim .pnull)),
             ("target_id", (aget r "target_entity_id").getD (.prim .pnull))] }
      let (restItems, restCount) := assembleRelationshipItems rest
      (item :: restItems, restCount + 1)

/-- The list comprehension
`[_create_relationship_description(r, entities_map) for r in relationships]`
(embedding_store.py line 181): left to right, the first `KeyError` escapes. -/
def relDescriptionTexts (entities_map : List (String × PyDict)) :
    List PyDict → Except String (List String)
  | [] => .ok []
  | r :: rest => do
    let t ← createRelationshipDescription r entities_map
    let ts ← relDescriptionTexts entities_map rest
    pure (t :: ts)

/-- `store_embeddings` (embedding_store.py lines 139-209), parameterised by
the two collaborators.  An empty input list is falsy, so a kind with no items
is skipped entirely.  The entity descriptions are total; the relationship
descriptions are synthesised outside any `try`, so a `KeyError` there escapes
the function (the `do` propagates it).  A failure of a kind's `embed_batch`
call is caught and that kind contributes nothing.  The final bulk
`add_items` call is made only when there are assembled items and is wrapped
in `try`/`except`: its outcome is discarded and the per-kind counts are
returned regardless. -/
def store_embeddings
    (embedB : List String → Except String (List (List Int)))
    (addItems : List DBItem → Except String Unit)
    (entities : List PyDict) (relationships : List PyDict)
    (entities_map : List (String × PyDict)) : Except String StoreCounts := do
  let (eItems, eCount) :=
    if entities.isEmpty then ([], 0)
    else
      let entity_texts := entities.map createEntityDescription
      match embedB entity_texts with
      | .error _ => ([], 0)
      | .ok entity_vectors =>
          assembleEntityItems (zip3 entities entity_texts entity_vectors)
  let (rItems, rCount) ←
    if relationships.isEmpty then pure (([] : List DBItem), 0)
    else do
      let rel_texts ← relDescriptionTexts entities_map relationships
      match embedB rel_texts with
      | .error _ => pure (([] : List DBItem), 0)
      | .ok rel_vectors =>
          pure (assembleRelationshipItems (zip3 relationships rel_texts rel_vectors))
  let items_to_add_to_db := eItems ++ rItems
  let _dbOutcome : Bool :=
    if items_to_add_to_db.isEmpty then true
    else
      match addItems items_to_add_to_db with
      | .ok _ => true
      | .error _ => true
  pure ⟨eCount, rCount⟩

/-! ### Sample data for concrete runs (mirrors the `__main__` examples) -/

open JPrim JValue

/-- A stored node record for entity `e1`. -/
def sampleOld : PyDict :=
  [("id", prim (pstr "e1")), ("text", prim (pstr "Alice")),
   ("role", prim (pstr "Engineer"))]

/-- A re-submission of entity `e1` with one overlapping and one new key. -/
def sampleNew : PyDict :=
  [("id", prim (pstr "e1")), ("text", prim (pstr "Alice Smith")),
   ("email", prim (pstr "alice@example.com"))]

/-- A store already holding node `e1`. -/
def sampleStore : KGStore := ⟨[("e1", sampleOld)], [], []⟩

/-- A stored edge record for relationship `r1`. -/
def sampleOldEdge : PyDict :=
  [("id", prim (pstr "r1")), ("source_entity_id", prim (pstr "e1")),
   ("target_entity_id", prim (pstr "e1")), ("note", prim (pstr "old"))]

/-- A store holding node `e1` and edge `r1`. -/
def sampleEdgeStore : KGStore := ⟨[("e1", sampleOld)], [("r1", sampleOldEdge)], []⟩

/-- A re-submission of relationship `r1`. -/
def sampleRel : PyDict :=
  [("id", prim (pstr "r1")), ("source_entity_id", prim (pstr "e1")),
   ("target_entity_id", prim (pstr "e1")), ("label", prim (pstr "KNOWS"))]

/-- A relationship whose source endpoint `eX` exists nowhere. -/
def badSourceRel : PyDict :=
  [("id", prim (pstr "rX")), ("source_entity_id", prim (pstr "eX")),
   ("target_entity_id", prim (pstr "e1"))]

/-- A relationship whose target endpoint `eY` exists nowhere. -/
def badTargetRel : PyDict :=
  [("id", prim (pstr "rY")), ("source_entity_id", prim (pstr "e1")),
   ("target_entity_id", prim (pstr "eY"))]

/-- The entity that repairs `badSourceRel` when added first in the batch. -/
def entX : PyDict := [("id", prim (pstr "eX")), ("text", prim (pstr "X"))]

/-- An entity record submitted without an id. -/
def noIdEnt : PyDict := [("label", prim (pstr "X"))]

/-- A relationship record submitted without an id. -/
def noIdRel : PyDict :=
  [("source_entity_id", prim (pstr "e1")), ("target_entity_id", prim (pstr "e1"))]

/-- An entity whose caller-supplied id collides with the id-generation scheme. -/
def entNode2 : PyDict := [("id", prim (pstr "node_2")), ("text", prim (pstr "A"))]

/-- Entity `Aspirin` tagged with chunk `c1` (kg_construction input shape). -/
def aspirinC1 : PyDict :=
  [("text", prim (pstr "Aspirin")), ("label", prim (pstr "CHEMICAL")),
   ("text_chunk_id", prim (pstr "c1"))]

/-- The same entity re-submitted tagged with chunk `c2`. -/
def aspirinC2 : PyDict :=
  [("text", prim (pstr "Aspirin")), ("label", prim (pstr "CHEMICAL")),
   ("text_chunk_id", prim (pstr "c2"))]

/-- The node attributes stored after the first `Aspirin` submission. -/
def aspirinAttrs : PyDict :=
  [("label", prim (pstr "CHEMICAL")), ("text_chunk_id", prim (pstr "c1"))]

/-- The graph holding the `Aspirin` node from the first submission. -/
def gAspirin : NXGraph := ⟨[("Aspirin", aspirinAttrs)], []⟩

/-- Entity `e1` with a chunk tag inside its `attributes` dict (kg_builder shape). -/
def eProvC1 : PyDict :=
  [("id", prim (pstr "e1")), ("text", prim (pstr "Alice")),
   ("attributes", obj [("chunk", pstr "c1")])]

/-- The same entity re-submitted tagged with chunk `c2`. -/
def eProvC2 : PyDict :=
  [("id", prim (pstr "e1")), ("text", prim (pstr "Alice")),
   ("attributes", obj [("chunk", pstr "c2")])]

/-- An embedding collaborator that succeeds on any batch with unit vectors. -/
def witEmbedB : List String → Except String (List (List Int)) :=
  fun ts => .ok (ts.map (fun _ => ([0] : List Int)))

/-- A vector-store collaborator whose bulk upsert always raises. -/
def witDbFail : List DBItem → Except String Unit := fun _ => .error "vector store down"

/-- A vector-store collaborator whose bulk upsert succeeds. -/
def witDbOk : List DBItem → Except String Unit := fun _ => .ok ()

/-- An entity whose attributes were inserted `role` first. -/
def eOrder1 : PyDict :=
  [("id", prim (pstr "e1")), ("text", prim (pstr "Alice")),
   ("label", prim (pstr "PERSON")),
   ("attributes", obj [("role", pstr "Engineer"), ("email", pstr "a@x")])]

/-- The same entity with its attributes inserted `email` first. -/
def eOrder2 : PyDict :=
  [("id", prim (pstr "e1")), ("text", prim (pstr "Alice")),
   ("label", prim (pstr "PERSON")),
   ("attributes", obj [("email", pstr "a@x"), ("role", pstr "Engineer")])]

/-- A relationship whose attributes were inserted `confidence` first. -/
def rOrder1 : PyDict :=
  [("id", prim (pstr "r1")), ("source_entity_id", prim (pstr "e1")),
   ("target_entity_id", prim (pstr "e2")), ("label", prim (pstr "WORKS_AT")),
   ("attributes", obj [("confidence", pnum 1), ("note", pstr "x")])]

/-- The same relationship with its attributes inserted `note` first. -/
def rOrder2 : PyDict :=
  [("id", prim (pstr "r1")), ("source_entity_id", prim (pstr "e1")),
   ("target_entity_id", prim (pstr "e2")), ("label", prim (pstr "WORKS_AT")),
   ("attributes", obj [("note", pstr "x"), ("confidence", pnum 1)])]

/-- Entity `e1` of the end-to-end scenario. -/
def entA : PyDict :=
  [("id", prim (pstr "e1")), ("label", prim (pstr "PERSON")),
   ("text", prim (pstr "Alice"))]

/-- Entity `e2` of the end-to-end scenario. -/
def entB : PyDict :=
  [("id", prim (pstr "e2")), ("label", prim (pstr "ORGANIZATION")),
   ("text", prim (pstr "Google"))]

/-- Relationship `r1` connecting `e1` to `e2`. -/
def relAB : PyDict :=
  [("id", prim (pstr "r1")), ("source_entity_id", prim (pstr "e1")),
   ("target_entity_id", prim (pstr "e2")), ("label", prim (pstr "WORKS_AT"))]

/-! ### Lemmas and claim theorems -/

theorem aget_aset_self {α : Type} (d : List (String × α)) (k : String) (v : α) :
    aget (aset d k v) k = some v := by
  induction d with
  | nil => simp [aset, aget]
  | cons hd tl ih =>
    by_cases h : hd.1 = k
    · simp [aset, h, aget]
    · simp [aset, h, aget, ih]

theorem aget_aset_ne {α : Type} (d : List (String × α)) {k k' : String} (v : α)
    (h : k' ≠ k) : aget (aset d k v) k' = aget d k' := by
  induction d with
  | nil => simp [aset, aget, (Ne.symm h : ¬ k = k')]
  | cons hd tl ih =>
    by_cases hk : hd.1 = k
    · subst hk
      simp only [aset, if_pos rfl, aget]
      rw [if_neg (fun hh => h hh.symm), if_neg (fun hh => h hh.symm)]
    · simp only [aset, if_neg hk, aget]
      by_cases hk' : hd.1 = k'
      · simp [hk']
      · simp [hk', ih]

theorem aget_eq_none_of_not_mem {α : Type} (d : List (String × α)) {k : String}
    (h : k ∉ d.map Prod.fst) : aget d k = none := by
  induction d with
  | nil => rfl
  | cons hd tl ih =>
    simp only [List.map_cons, List.mem_cons] at h
    push_neg at h
    simp [aget, (Ne.symm h.1 : ¬ hd.1 = k), ih h.2]

theorem aget_pyUpdate (d e : PyDict) (hnd : (e.map Prod.fst).Nodup) (k : String) :
    aget (pyUpdate d e) k =
      match aget e k with
      | some v => some v
      | none => aget d k := by
  induction e generalizing d with
  | nil => simp [pyUpdate, aget]
  | cons hd tl ih =>
    simp only [List.map_cons, List.nodup_cons] at hnd
    have step : pyUpdate d (hd :: tl) = pyUpdate (aset d hd.1 hd.2) tl := rfl
    rw [step, ih _ hnd.2]
    by_cases hk : hd.1 = k
    · subst hk
      have : aget tl hd.1 = none :=
        aget_eq_none_of_not_mem tl hnd.1
      simp [aget, this, aget_aset_self]
    · have hne : k ≠ hd.1 := fun hh => hk hh.symm
      simp [aget, hk, aget_aset_ne d hd.2 hne]

theorem aset_map_fst {α : Type} (d : List (String × α)) (k : String) (v : α) :
    (aset d k v).map Prod.fst =
      if k ∈ d.map Prod.fst then d.map Prod.fst else d.map Prod.fst ++ [k] := by
  induction d with
  | nil => simp [aset]
  | cons hd tl ih =>
    by_cases h : hd.1 = k
    · simp [aset, h]
    · have hne : ¬ k = hd.1 := fun hh => h hh.symm
      by_cases hm : k ∈ tl.map Prod.fst
      · simp [aset, h, ih, hm, hne]
      · simp [aset, h, ih, hm, hne]

theorem nodup_aset {α : Type} (d : List (String × α)) (k : String) (v : α)
    (hnd : (d.map Prod.fst).Nodup) : ((aset d k v).map Prod.fst).Nodup := by
  rw [aset_map_fst]
  by_cases hm : k ∈ d.map Prod.fst
  · simpa [hm]
  · simpa [hm, List.nodup_append] using hnd

theorem count_aset_self {α : Type} (d : List (String × α)) (k : String) (v : α)
    (hnd : (d.map Prod.fst).Nodup) : ((aset d k v).map Prod.fst).count k = 1 := by
  rw [aset_map_fst]
  by_cases hm : k ∈ d.map Prod.fst
  · simp only [if_pos hm]
    exact List.count_eq_one_of_mem hnd hm
  · have : (d.map Prod.fst).count k = 0 := List.count_eq_zero.mpr hm
    simp [if_neg hm, List.count_append, this, List.count_singleton]

theorem aset_eq_append_of_not_mem {α : Type} (d : List (String × α)) {k : String}
    (v : α) (h : aget d k = none) : aset d k v = d ++ [(k, v)] := by
  induction d with
  | nil => simp [aset]
  | cons hd tl ih =>
    simp only [aget] at h
    by_cases hk : hd.1 = k
    · simp [hk] at h
    · simp only [aget, if_neg hk] at h
      simp [aset, hk, ih h]

theorem add_entities_to_graph_go (es : List PyDict) :
    ∀ (s : KGStore) (l : List String),
      es.foldl
        (fun acc e =>
          let (s', nid, _) := add_node acc.1 e
          (s', acc.2 ++ [nid]))
        (s, l) =
      ((add_entities_to_graph s es).1, l ++ (add_entities_to_graph s es).2) := by
  induction es with
  | nil => intro s l; simp [add_entities_to_graph]
  | cons e rest ih =>
    intro s l
    simp only [add_entities_to_graph, List.foldl_cons]
    rw [ih, ih]
    simp

theorem add_entities_to_graph_length (s : KGStore) (es : List PyDict) :
    (add_entities_to_graph s es).2.length = es.length := by
  induction es generalizing s with
  | nil => simp [add_entities_to_graph]
  | cons e rest ih =>
    simp only [add_entities_to_graph, List.foldl_cons]
    rw [add_entities_to_graph_go]
    simpa using ih (add_node s e).1

theorem add_relationships_to_graph_go (rs : List PyDict) :
    ∀ (s : KGStore) (l : List String),
      rs.foldl
        (fun acc r =>
          match add_edge acc.1 r with
          | .ok (s', eid, _) => (s', acc.2 ++ [eid])
          | .error _ => acc)
        (s, l) =
      ((add_relationships_to_graph s rs).1, l ++ (add_relationships_to_graph s rs).2) := by
  induction rs with
  | nil => intro s l; simp [add_relationships_to_graph]
  | cons r rest ih =>
    intro s l
    simp only [add_relationships_to_graph, List.foldl_cons]
    match hr : add_edge s r with
    | .ok (s', eid, rcd) => rw [ih, ih]; simp
    | .error msg => rw [ih, ih]; simp

/-- The only failure of `add_edge` is a missing endpoint: it succeeds exactly
when both endpoint ids resolve against the persisted nodes or the session's
touched set. -/
theorem add_edge_ok_iff (s : KGStore) (rel : PyDict) :
    (∃ x, add_edge s rel = .ok x) ↔
      (endpointPresent s (aget rel "source_entity_id") = true ∧
       endpointPresent s (aget rel "target_entity_id") = true) := by
  unfold add_edge
  by_cases hs : endpointPresent s (aget rel "source_entity_id") = true
  · by_cases ht : endpointPresent s (aget rel "target_entity_id") = true
    · simp [hs, ht]
    · simp [hs, ht]
  · simp [hs]

theorem add_edge_error_of_missing_source (s : KGStore) (rel : PyDict)
    (hs : endpointPresent s (aget rel "source_entity_id") = false) :
    add_edge s rel =
      .error ("Source node " ++ pyStrOpt (aget rel "source_entity_id") ++ " not found.") := by
  unfold add_edge
  simp [hs]

theorem add_edge_error_of_missing_target (s : KGStore) (rel : PyDict)
    (hs : endpointPresent s (aget rel "source_entity_id") = true)
    (ht : endpointPresent s (aget rel "target_entity_id") = false) :
    add_edge s rel =
      .error ("Target node " ++ pyStrOpt (aget rel "target_entity_id") ++ " not found.") := by
  unfold add_edge
  simp [hs, ht]

/-- An `add_edge` failure leaves the store where it was and contributes no id;
processing continues with the remaining relationships. -/
theorem add_relationships_skip (s : KGStore) (r : PyDict) (rest : List PyDict)
    (h : ¬ (endpointPresent s (aget r "source_entity_id") = true ∧
            endpointPresent s (aget r "target_entity_id") = true)) :
    add_relationships_to_graph s (r :: rest) = add_relationships_to_graph s rest := by
  have : ∀ x, add_edge s r ≠ .ok x := by
    intro x hx
    exact h ((add_edge_ok_iff s r).mp ⟨x, hx⟩)
  simp only [add_relationships_to_graph, List.foldl_cons]
  match hr : add_edge s r with
  | .ok y => exact absurd hr (this y)
  | .error msg => rfl

/-- An `add_edge` success contributes exactly its edge id, in front of the
ids from the remaining relationships, which are processed against the
updated store. -/
theorem add_relationships_step (s s' : KGStore) (r rcd : PyDict) (eid : String)
    (rest : List PyDict) (h : add_edge s r = .ok (s', eid, rcd)) :
    add_relationships_to_graph s (r :: rest) =
      ((add_relationships_to_graph s' rest).1,
       eid :: (add_relationships_to_graph s' rest).2) := by
  simp only [add_relationships_to_graph, List.foldl_cons, h]
  rw [add_relationships_to_graph_go]
  simp [add_relationships_to_graph]

/-- `add_node` on an entity carrying a (truthy, string) id: upsert under that
id, record it in the session set, return it, leave the record untouched. -/
theorem add_node_with_id (s : KGStore) (e : PyDict) (i : String)
    (hid : aget e "id" = some (JValue.prim (JPrim.pstr i))) (hi : i ≠ "") :
    add_node s e =
      ({ s with
          nodes :=
            match aget s.nodes i with
            | some old => aset s.nodes i (pyUpdate old e)
            | none => aset s.nodes i e,
          temp_node_ids := insertOnce s.temp_node_ids i }, i, e) := by
  unfold add_node
  rw [hid]
  simp [truthyOpt, truthy, hi, idKey]

/-- `add_node` on an entity with no truthy id: generate
`node_{len(nodes)+1}`, write it into the record, upsert under it. -/
theorem add_node_no_id (s : KGStore) (e : PyDict)
    (hno : truthyOpt (aget e "id") = false) :
    add_node s e =
      ({ s with
          nodes :=
            match aget s.nodes ("node_" ++ toString (s.nodes.length + 1)) with
            | some old =>
                aset s.nodes ("node_" ++ toString (s.nodes.length + 1))
                  (pyUpdate old
                    (aset e "id" (JValue.prim (JPrim.pstr ("node_" ++ toString (s.nodes.length + 1))))))
            | none =>
                aset s.nodes ("node_" ++ toString (s.nodes.length + 1))
                  (aset e "id" (JValue.prim (JPrim.pstr ("node_" ++ toString (s.nodes.length + 1))))),
          temp_node_ids :=
            insertOnce s.temp_node_ids ("node_" ++ toString (s.nodes.length + 1)) },
       "node_" ++ toString (s.nodes.length + 1),
       aset e "id" (JValue.prim (JPrim.pstr ("node_" ++ toString (s.nodes.length + 1))))) := by
  unfold add_node
  rw [hno]
  simp

/-- `add_edge` on a relationship carrying a (truthy, string) id, with both
endpoints resolving: upsert under that id, leave the record untouched. -/
theorem add_edge_with_id (s : KGStore) (rel : PyDict) (j : String)
    (hid : aget rel "id" = some (JValue.prim (JPrim.pstr j))) (hj : j ≠ "")
    (hs : endpointPresent s (aget rel "source_entity_id") = true)
    (ht : endpointPresent s (aget rel "target_entity_id") = true) :
    add_edge s rel =
      .ok ({ s with
              edges :=
                match aget s.edges j with
                | some old => aset s.edges j (pyUpdate old rel)
                | none => aset s.edges j rel }, j, rel) := by
  unfold add_edge
  rw [hid]
  simp [truthyOpt, truthy, hj, idKey, hs, ht]

/-- `add_edge` on a relationship with no truthy id, with both endpoints
resolving: generate `edge_{len(edges)+1}`, write it into the record, upsert
under it. -/
theorem add_edge_no_id (s : KGStore) (rel : PyDict)
    (hno : truthyOpt (aget rel "id") = false)
    (hs : endpointPresent s (aget rel "source_entity_id") = true)
    (ht : endpointPresent s (aget rel "target_entity_id") = true) :
    add_edge s rel =
      .ok ({ s with
              edges :=
                match aget s.edges ("edge_" ++ toString (s.edges.length + 1)) with
                | some old =>
                    aset s.edges ("edge_" ++ toString (s.edges.length + 1))
                      (pyUpdate old
                        (aset rel "id"
                          (JValue.prim (JPrim.pstr ("edge_" ++ toString (s.edges.length + 1))))))
                | none =>
                    aset s.edges ("edge_" ++ toString (s.edges.length + 1))
                      (aset rel "id"
                        (JValue.prim (JPrim.pstr ("edge_" ++ toString (s.edges.length + 1))))) },
           "edge_" ++ toString (s.edges.length + 1),
           aset rel "id"
             (JValue.prim (JPrim.pstr ("edge_" ++ toString (s.edges.length + 1))))) := by
  unfold add_edge
  rw [hno]
  simp [hs, ht]

/-- C3: on every upsert of an existing node or edge (`self.nodes[id].update(entity)` /
`self.edges[id].update(relationship)`), the merge is last-write-wins per key:
every key supplied in the new submission takes the new value, and every key of
the prior stored record not supplied in the new submission is preserved
unchanged in the resulting record. -/
theorem upsert_attribute_merge
    (s s2 : KGStore) (e r old oldr : PyDict) (i j : String)
    (hid : aget e "id" = some (JValue.prim (JPrim.pstr i))) (hi : i ≠ "")
    (hold : aget s.nodes i = some old)
    (hnd : (e.map Prod.fst).Nodup)
    (hrid : aget r "id" = some (JValue.prim (JPrim.pstr j))) (hj : j ≠ "")
    (holdr : aget s2.edges j = some oldr)
    (hndr : (r.map Prod.fst).Nodup)
    (hsrc : endpointPresent s2 (aget r "source_entity_id") = true)
    (htgt : endpointPresent s2 (aget r "target_entity_id") = true) :
    (aget (add_node s e).1.nodes i = some (pyUpdate old e)
      ∧ ∀ k, aget (pyUpdate old e) k =
          match aget e k with
          | some v => some v
          | none => aget old k)
    ∧ (∃ s', add_edge s2 r = .ok (s', j, r)
        ∧ aget s'.edges j = some (pyUpdate oldr r)
        ∧ ∀ k, aget (pyUpdate oldr r) k =
            match aget r k with
            | some v => some v
            | none => aget oldr k) := by
  constructor
  · refine ⟨?_, fun k => aget_pyUpdate old e hnd k⟩
    rw [add_node_with_id s e i hid hi]
    simp only [hold]
    exact aget_aset_self ..
  · refine ⟨{ s2 with edges := aset s2.edges j (pyUpdate oldr r) }, ?_, ?_,
      fun k => aget_pyUpdate oldr r hndr k⟩
    · rw [add_edge_with_id s2 r j hrid hj hsrc htgt]
      simp only [holdr]
    · exact aget_aset_self ..

/-- C4: `add_entity` is idempotent with respect to node identity: two
`add_node` calls with the same id-carrying payload leave exactly one node
keyed by that id, and both calls return that id. -/
theorem add_entity_idempotent (s : KGStore) (e : PyDict) (i : String)
    (hid : aget e "id" = some (JValue.prim (JPrim.pstr i))) (hi : i ≠ "")
    (hnd : (s.nodes.map Prod.fst).Nodup) :
    (add_node s e).2.1 = i
    ∧ (add_node (add_node s e).1 e).2.1 = i
    ∧ ((add_node (add_node s e).1 e).1.nodes.map Prod.fst).count i = 1
    ∧ ((add_node (add_node s e).1 e).1.nodes.map Prod.fst).Nodup := by
  have h1 := add_node_with_id s e i hid hi
  rw [h1]
  cases hcase : aget s.nodes i with
  | some old =>
    simp only [hcase]
    have hnd1 : ((aset s.nodes i (pyUpdate old e)).map Prod.fst).Nodup :=
      nodup_aset _ _ _ hnd
    rw [add_node_with_id _ e i hid hi]
    simp only [aget_aset_self]
    exact ⟨trivial, trivial, count_aset_self _ _ _ hnd1, nodup_aset _ _ _ hnd1⟩
  | none =>
    simp only [hcase]
    have hnd1 : ((aset s.nodes i e).map Prod.fst).Nodup :=
      nodup_aset _ _ _ hnd
    rw [add_node_with_id _ e i hid hi]
    simp only [aget_aset_self]
    exact ⟨trivial, trivial, count_aset_self _ _ _ hnd1, nodup_aset _ _ _ hnd1⟩

/-- C1: a relationship whose `source_entity_id` or `target_entity_id` is
neither a persisted node id nor in the session's touched-node-id set makes
`add_edge` fail with the error naming the missing endpoint, and the edge set
is left unchanged; and if the missing entity is added via `add_node` earlier
in the same batch (after `clear_session_tracking`), the endpoint resolves and
the subsequent `add_edge` succeeds. -/
theorem referential_integrity (s : KGStore) (rel : PyDict) :
    (endpointPresent s (aget rel "source_entity_id") = false →
      add_edge s rel =
        .error ("Source node " ++ pyStrOpt (aget rel "source_entity_id") ++ " not found.")
      ∧ (add_relationships_to_graph s [rel]).1.edges = s.edges
      ∧ (add_relationships_to_graph s [rel]).2 = [])
    ∧ (endpointPresent s (aget rel "source_entity_id") = true →
       endpointPresent s (aget rel "target_entity_id") = false →
      add_edge s rel =
        .error ("Target node " ++ pyStrOpt (aget rel "target_entity_id") ++ " not found.")
      ∧ (add_relationships_to_graph s [rel]).1.edges = s.edges
      ∧ (add_relationships_to_graph s [rel]).2 = [])
    ∧ (∀ (e : PyDict) (i : String),
        aget e "id" = some (JValue.prim (JPrim.pstr i)) → i ≠ "" →
        aget rel "source_entity_id" = some (JValue.prim (JPrim.pstr i)) →
        endpointPresent ((add_node (clear_session_tracking s) e).1)
            (aget rel "target_entity_id") = true →
        endpointPresent ((add_node (clear_session_tracking s) e).1)
            (aget rel "source_entity_id") = true
        ∧ ∃ x, add_edge ((add_node (clear_session_tracking s) e).1) rel = .ok x) := by
  refine ⟨?_, ?_, ?_⟩
  · intro hs
    have herr := add_edge_error_of_missing_source s rel hs
    refine ⟨herr, ?_, ?_⟩ <;>
      simp [add_relationships_to_graph, herr]
  · intro hs ht
    have herr := add_edge_error_of_missing_target s rel hs ht
    refine ⟨herr, ?_, ?_⟩ <;>
      simp [add_relationships_to_graph, herr]
  · intro e i hid hi hsrc htgt
    have hpres : endpointPresent ((add_node (clear_session_tracking s) e).1)
        (aget rel "source_entity_id") = true := by
      rw [hsrc]
      rw [add_node_with_id (clear_session_tracking s) e i hid hi]
      simp only [endpointPresent, idKey]
      cases hcase : aget (clear_session_tracking s).nodes i <;>
        simp [hcase, aget_aset_self]
    exact ⟨hpres, (add_edge_ok_iff _ rel).mpr ⟨hpres, htgt⟩⟩

/-- C10: a record submitted without a (truthy) id is mutated in place by
writing the generated id under its `id` key before the store keeps it; all
its other keys are unchanged; and a record submitted with an id is returned
exactly as it came in.  Holds for `add_node` and, on the success path, for
`add_edge`. -/
theorem add_record_mutation (s s2 : KGStore) (e rel : PyDict) :
    (truthyOpt (aget e "id") = false →
      aget (add_node s e).2.2 "id"
        = some (JValue.prim (JPrim.pstr ("node_" ++ toString (s.nodes.length + 1))))
      ∧ (∀ k, k ≠ "id" → aget (add_node s e).2.2 k = aget e k)
      ∧ (add_node s e).2.1 = "node_" ++ toString (s.nodes.length + 1)
      ∧ (aget s.nodes ("node_" ++ toString (s.nodes.length + 1)) = none →
          aget (add_node s e).1.nodes ((add_node s e).2.1) = some ((add_node s e).2.2)))
    ∧ (truthyOpt (aget e "id") = true → (add_node s e).2.2 = e)
    ∧ (endpointPresent s2 (aget rel "source_entity_id") = true →
       endpointPresent s2 (aget rel "target_entity_id") = true →
      (truthyOpt (aget rel "id") = false →
        ∃ x, add_edge s2 rel = .ok x
          ∧ aget x.2.2 "id"
              = some (JValue.prim (JPrim.pstr ("edge_" ++ toString (s2.edges.length + 1))))
          ∧ (∀ k, k ≠ "id" → aget x.2.2 k = aget rel k)
          ∧ (aget s2.edges ("edge_" ++ toString (s2.edges.length + 1)) = none →
              aget x.1.edges x.2.1 = some x.2.2))
      ∧ (truthyOpt (aget rel "id") = true →
          ∃ x, add_edge s2 rel = .ok x ∧ x.2.2 = rel)) := by
  refine ⟨?_, ?_, ?_⟩
  · intro hno
    rw [add_node_no_id s e hno]
    refine ⟨aget_aset_self .., fun k hk => aget_aset_ne e _ hk, rfl, ?_⟩
    intro hfresh
    simp only [hfresh]
    exact aget_aset_self ..
  · intro hyes
    unfold add_node
    rw [hyes]
    simp
  · intro hs ht
    constructor
    · intro hno
      rw [add_edge_no_id s2 rel hno hs ht]
      refine ⟨_, rfl, aget_aset_self .., fun k hk => aget_aset_ne rel _ hk, ?_⟩
      intro hfresh
      simp only [hfresh]
      exact aget_aset_self ..
    · intro hyes
      unfold add_edge
      rw [hyes]
      simp only [if_true, hs, ht, Bool.not_true, Bool.false_eq_true, if_false]
      exact ⟨_, rfl, rfl⟩


/-- Witness for C3 at a concrete store: the re-submitted `text` wins, the
unsupplied `role` is preserved, and the edge upsert succeeds. -/
theorem upsert_attribute_merge_witness :
    aget (add_node sampleStore sampleNew).1.nodes "e1"
        = some (pyUpdate sampleOld sampleNew)
    ∧ aget (pyUpdate sampleOld sampleNew) "role" = some (prim (pstr "Engineer"))
    ∧ aget (pyUpdate sampleOld sampleNew) "text" = some (prim (pstr "Alice Smith"))
    ∧ (add_edge sampleEdgeStore sampleRel).isOk = true := by
  have h := upsert_attribute_merge sampleStore sampleEdgeStore sampleNew sampleRel
    sampleOld sampleOldEdge "e1" "r1" (by decide) (by decide) (by decide) (by decide)
    (by decide) (by decide) (by decide) (by decide) (by decide) (by decide)
  refine ⟨h.1.1, by decide, by decide, ?_⟩
  obtain ⟨s', hs', _⟩ := h.2
  rw [hs']
  rfl

/-- Witness for C4: adding `sampleNew` twice to the empty store returns `e1`
both times and leaves exactly one node keyed `e1`. -/
theorem add_entity_idempotent_witness :
    (add_node KGStore.init sampleNew).2.1 = "e1"
    ∧ (add_node (add_node KGStore.init sampleNew).1 sampleNew).2.1 = "e1"
    ∧ ((add_node (add_node KGStore.init sampleNew).1 sampleNew).1.nodes.map
        Prod.fst).count "e1" = 1 := by
  have h := add_entity_idempotent KGStore.init sampleNew "e1"
    (by decide) (by decide) (by decide)
  exact ⟨h.1, h.2.1, h.2.2.1⟩

/-- Witness for C1: a dangling source fails with the error naming it and
inserts nothing; a dangling target fails naming it; adding the missing entity
first in the same batch makes the add succeed. -/
theorem referential_integrity_witness :
    (add_edge sampleStore badSourceRel =
        .error ("Source node " ++ pyStrOpt (aget badSourceRel "source_entity_id")
          ++ " not found.")
      ∧ (add_relationships_to_graph sampleStore [badSourceRel]).1.edges
          = sampleStore.edges
      ∧ (add_relationships_to_graph sampleStore [badSourceRel]).2 = [])
    ∧ add_edge sampleStore badTargetRel =
        .error ("Target node " ++ pyStrOpt (aget badTargetRel "target_entity_id")
          ++ " not found.")
    ∧ endpointPresent ((add_node (clear_session_tracking sampleStore) entX).1)
        (aget badSourceRel "source_entity_id") = true
    ∧ (add_edge ((add_node (clear_session_tracking sampleStore) entX).1)
        badSourceRel).isOk = true := by
  have h := referential_integrity sampleStore badSourceRel
  have h2 := referential_integrity sampleStore badTargetRel
  have hc := h.2.2 entX "eX" (by decide) (by decide) (by decide) (by decide)
  refine ⟨h.1 (by decide), (h2.2.1 (by decide) (by decide)).1, hc.1, ?_⟩
  obtain ⟨x, hx⟩ := hc.2
  rw [hx]
  rfl

/-- Witness for C10: a record without an id gets the generated id written
under `id` with its other keys untouched; a record with an id comes back
unchanged; the same on the edge path. -/
theorem add_record_mutation_witness :
    aget (add_node KGStore.init noIdEnt).2.2 "id"
        = some (prim (pstr ("node_" ++ toString (KGStore.init.nodes.length + 1))))
    ∧ aget (add_node KGStore.init noIdEnt).2.2 "label" = aget noIdEnt "label"
    ∧ (add_node sampleStore sampleNew).2.2 = sampleNew
    ∧ (add_edge sampleEdgeStore noIdRel).isOk = true := by
  have h := add_record_mutation KGStore.init sampleEdgeStore noIdEnt noIdRel
  have h2 := add_record_mutation sampleStore sampleEdgeStore sampleNew sampleRel
  have ha := h.1 (by decide)
  refine ⟨ha.1, ha.2.1 "label" (by decide), h2.2.1 (by decide), ?_⟩
  obtain ⟨x, hx, _⟩ := (h.2.2 (by decide) (by decide)).1 (by decide)
  rw [hx]
  rfl

/-- Pulling a key through a filter that keeps every entry with that key. -/
theorem aget_filter_key {α : Type} (l : List (String × α)) (q : String × α → Bool)
    (k : String) (hq : ∀ v, q (k, v) = true) :
    aget (l.filter q) k = aget l k := by
  induction l with
  | nil => rfl
  | cons hd tl ih =>
    by_cases hk : hd.1 = k
    · have hqhd : q hd = true := by
        have h2 : q (k, hd.2) = true := hq hd.2
        rw [← hk] at h2
        simpa using h2
      simp [List.filter_cons, hqhd, aget, hk, ih]
    · cases hq' : q hd with
      | true => simp [List.filter_cons, hq', aget, hk, ih]
      | false => simp [List.filter_cons, hq', aget, hk, ih]

/-- Counterexample to C9: in a store whose only node carries the
caller-supplied id `node_2`, `add_node` on an id-less entity generates
`node_2` (from `len(self.nodes) + 1`), which equals the existing node id: the
generated id is not fresh, and the submission merges into the existing node
(the node count stays 1) instead of creating a new one. -/
theorem generated_id_not_fresh_counterexample :
    (add_node (add_node KGStore.init entNode2).1 noIdEnt).2.1 = "node_2"
    ∧ (aget (add_node KGStore.init entNode2).1.nodes "node_2").isSome = true
    ∧ (add_node (add_node KGStore.init entNode2).1 noIdEnt).1.nodes.length = 1 := by
  decide

/-- C9 amended: an id-less record gets the id `node_{count+1}`
(`edge_{count+1}` for relationships), computed from the current table size;
that id is fresh — and the record is appended without touching any existing
entry — exactly when no existing node (edge) already bears it, which a
caller-supplied id of the same shape can defeat. -/
theorem generated_id_fresh_when_unclaimed (s s2 : KGStore) (e rel : PyDict)
    (hno : truthyOpt (aget e "id") = false)
    (hfresh : aget s.nodes ("node_" ++ toString (s.nodes.length + 1)) = none)
    (hnor : truthyOpt (aget rel "id") = false)
    (hfreshE : aget s2.edges ("edge_" ++ toString (s2.edges.length + 1)) = none)
    (hs : endpointPresent s2 (aget rel "source_entity_id") = true)
    (ht : endpointPresent s2 (aget rel "target_entity_id") = true) :
    ((add_node s e).2.1 = "node_" ++ toString (s.nodes.length + 1)
      ∧ (add_node s e).1.nodes
          = s.nodes ++ [("node_" ++ toString (s.nodes.length + 1),
              aset e "id" (prim (pstr ("node_" ++ toString (s.nodes.length + 1)))))])
    ∧ (∃ x, add_edge s2 rel = .ok x
        ∧ x.2.1 = "edge_" ++ toString (s2.edges.length + 1)
        ∧ x.1.edges
            = s2.edges ++ [("edge_" ++ toString (s2.edges.length + 1),
                aset rel "id" (prim (pstr ("edge_" ++ toString (s2.edges.length + 1)))))]) := by
  constructor
  · rw [add_node_no_id s e hno]
    simp only [hfresh]
    exact ⟨trivial, aset_eq_append_of_not_mem s.nodes _ hfresh⟩
  · rw [add_edge_no_id s2 rel hnor hs ht]
    simp only [hfreshE]
    exact ⟨_, rfl, rfl, aset_eq_append_of_not_mem s2.edges _ hfreshE⟩

/-- Witness for the amended C9 at concrete stores where the generated ids are
unclaimed. -/
theorem generated_id_fresh_when_unclaimed_witness :
    (add_node KGStore.init noIdEnt).2.1 = "node_" ++ toString (KGStore.init.nodes.length + 1)
    ∧ (add_node KGStore.init noIdEnt).1.nodes
        = KGStore.init.nodes ++ [("node_" ++ toString (KGStore.init.nodes.length + 1),
            aset noIdEnt "id" (prim (pstr ("node_" ++ toString (KGStore.init.nodes.length + 1)))))]
    ∧ (add_edge sampleEdgeStore noIdRel).isOk = true
    ∧ aget sampleEdgeStore.edges ("edge_" ++ toString (sampleEdgeStore.edges.length + 1))
        = none := by
  have h := generated_id_fresh_when_unclaimed KGStore.init sampleEdgeStore noIdEnt noIdRel
    (by decide) (by decide) (by decide) (by decide) (by decide) (by decide)
  refine ⟨h.1.1, h.1.2, ?_, by decide⟩
  obtain ⟨x, hx, _, _⟩ := h.2
  rw [hx]
  rfl

/-- Counterexample to C2: provenance is not monotonic.  Through `create_kg`,
re-submitting the `Aspirin` node tagged `c2` after a submission tagged `c1`
leaves `text_chunk_id = "c2"` only — the record of `c1` is removed, not
unioned.  Through `add_node`, re-submitting entity `e1` whose attributes tag
chunk `c2` replaces the whole attributes dict, erasing the `c1` tag. -/
theorem provenance_not_monotonic_counterexample :
    create_kg [aspirinC1, aspirinC2] []
      = .ok ⟨[("Aspirin", [("label", prim (pstr "CHEMICAL")),
                ("text_chunk_id", prim (pstr "c2"))])], []⟩
    ∧ aget [("label", prim (pstr "CHEMICAL")), ("text_chunk_id", prim (pstr "c2"))]
        "text_chunk_id" = some (prim (pstr "c2"))
    ∧ ([("label", prim (pstr "CHEMICAL")), ("text_chunk_id", prim (pstr "c2"))].all
        (fun kv => kv.2 ≠ prim (pstr "c1"))) = true
    ∧ aget (add_node (add_node KGStore.init eProvC1).1 eProvC2).1.nodes "e1"
        = some [("id", prim (pstr "e1")), ("text", prim (pstr "Alice")),
                ("attributes", obj [("chunk", pstr "c2")])] := by
  decide

/-- C2 amended: a chunk tag is ordinary attribute data and follows the
last-write-wins merge: re-submitting a node with a `text_chunk_id` stores the
new tag, replacing (not unioning with) whatever tag was recorded before; an
entity submitted tagged `c1` and then tagged `c2` ends with chunk tag `c2`
only. -/
theorem provenance_last_write_wins (g : NXGraph) (e : PyDict) (tv : JValue)
    (old : PyDict) (c : JPrim)
    (htext : aget e "text" = some tv)
    (hold : aget g.nodes (idKey tv) = some old)
    (hchunk : aget e "text_chunk_id" = some (prim c))
    (hnd : ((e.filter (fun kv => kv.1 ≠ "text")).map Prod.fst).Nodup) :
    ∃ g', kgAddEntity g e = .ok g'
      ∧ aget g'.nodes (idKey tv)
          = some (pyUpdate old (e.filter (fun kv => kv.1 ≠ "text")))
      ∧ aget (pyUpdate old (e.filter (fun kv => kv.1 ≠ "text"))) "text_chunk_id"
          = some (prim c) := by
  have hq : ∀ v : JValue, decide ((("text_chunk_id", v) : String × JValue).1 ≠ "text") = true :=
    fun _ => rfl
  have hfilter : aget (e.filter (fun kv => decide (kv.1 ≠ "text"))) "text_chunk_id"
      = some (prim c) := by
    rw [aget_filter_key e (fun kv => decide (kv.1 ≠ "text")) "text_chunk_id" hq]
    exact hchunk
  have hstep : kgAddEntity g e =
      .ok ⟨aset g.nodes (idKey tv)
        (pyUpdate old (e.filter (fun kv => decide (kv.1 ≠ "text")))), g.edges⟩ := by
    unfold kgAddEntity pyItem
    rw [htext]
    simp only [bind, Except.bind, hold]
    rfl
  refine ⟨_, hstep, aget_aset_self .., ?_⟩
  rw [aget_pyUpdate old _ hnd "text_chunk_id", hfilter]

/-- Witness for the amended C2: re-submitting `Aspirin` tagged `c2` over the
stored `c1` tag ends with the chunk tag `c2`. -/
theorem provenance_last_write_wins_witness :
    (kgAddEntity gAspirin aspirinC2).isOk = true
    ∧ aget (pyUpdate aspirinAttrs (aspirinC2.filter (fun kv => kv.1 ≠ "text")))
        "text_chunk_id" = some (prim (pstr "c2")) := by
  have h := provenance_last_write_wins gAspirin aspirinC2 (prim (pstr "Aspirin"))
    aspirinAttrs (pstr "c2") (by decide) (by decide) (by decide) (by decide)
  obtain ⟨g', hg, hag, hch⟩ := h
  exact ⟨by rw [hg]; rfl, hch⟩

/-- String append is associative. -/
theorem strAppend_assoc (a b c : String) : a ++ b ++ c = a ++ (b ++ c) := by
  apply String.ext
  simp [String.data_append, List.append_assoc]

/-- Full unfolding of `_create_relationship_description` for a relationship
that carries its two endpoint-id fields: the call never fails, and each
endpoint text is the looked-up entity's `text` or the literal placeholder. -/
theorem createRelDesc_eq (rel : PyDict) (em : List (String × PyDict)) (sv tv : JValue)
    (hs : aget rel "source_entity_id" = some sv)
    (ht : aget rel "target_entity_id" = some tv) :
    createRelationshipDescription rel em =
      .ok (if truthyOpt (aget rel "attributes") = true then
            ("Relationship: '"
              ++ (match aget em (idKey sv) with
                  | some se => getStrD se "text" "Unknown Source Entity"
                  | none => "Unknown Source Entity")
              ++ "' " ++ getStrD rel "label" "RELATED_TO" ++ " '"
              ++ (match aget em (idKey tv) with
                  | some te => getStrD te "text" "Unknown Target Entity"
                  | none => "Unknown Target Entity")
              ++ "'. (ID: " ++ pyStrOpt (aget rel "id") ++ ")")
              ++ "\nAttributes: " ++ jsonDumps ((aget rel "attributes").getD (prim pnull))
          else
            "Relationship: '"
              ++ (match aget em (idKey sv) with
                  | some se => getStrD se "text" "Unknown Source Entity"
                  | none => "Unknown Source Entity")
              ++ "' " ++ getStrD rel "label" "RELATED_TO" ++ " '"
              ++ (match aget em (idKey tv) with
                  | some te => getStrD te "text" "Unknown Target Entity"
                  | none => "Unknown Target Entity")
              ++ "'. (ID: " ++ pyStrOpt (aget rel "id") ++ ")") := by
  unfold createRelationshipDescription pyItem
  rw [hs, ht]
  simp only [bind, Except.bind]
  cases hattr : aget rel "attributes" with
  | none => simp [truthyOpt, pure, Except.pure]
  | some v =>
    cases htr : truthy v with
    | false => simp [truthyOpt, hattr, htr, pure, Except.pure]
    | true => simp [truthyOpt, hattr, htr, pure, Except.pure]

/-- C8: for every relationship (carrying its declared endpoint-id fields) and
every caller-supplied entity-lookup map, relationship description synthesis
never fails; when an endpoint id is missing from the map — in particular when
the map is empty/absent — the rendered description uses the literal
placeholder `Unknown Source Entity` / `Unknown Target Entity` in place of that
endpoint's entity text. -/
theorem relationship_description_placeholders (rel : PyDict)
    (em : List (String × PyDict)) (sv tv : JValue)
    (hs : aget rel "source_entity_id" = some sv)
    (ht : aget rel "target_entity_id" = some tv) :
    (∃ d, createRelationshipDescription rel em = .ok d)
    ∧ (aget em (idKey sv) = none → aget em (idKey tv) = none →
        createRelationshipDescription rel em =
          .ok (if truthyOpt (aget rel "attributes") = true then
                ("Relationship: '" ++ "Unknown Source Entity" ++ "' "
                  ++ getStrD rel "label" "RELATED_TO" ++ " '" ++ "Unknown Target Entity"
                  ++ "'. (ID: " ++ pyStrOpt (aget rel "id") ++ ")")
                  ++ "\nAttributes: " ++ jsonDumps ((aget rel "attributes").getD (prim pnull))
              else
                "Relationship: '" ++ "Unknown Source Entity" ++ "' "
                  ++ getStrD rel "label" "RELATED_TO" ++ " '" ++ "Unknown Target Entity"
                  ++ "'. (ID: " ++ pyStrOpt (aget rel "id") ++ ")"))
    ∧ (∀ te, aget em (idKey sv) = none → aget em (idKey tv) = some te →
        createRelationshipDescription rel em =
          .ok (if truthyOpt (aget rel "attributes") = true then
                ("Relationship: '" ++ "Unknown Source Entity" ++ "' "
                  ++ getStrD rel "label" "RELATED_TO" ++ " '"
                  ++ getStrD te "text" "Unknown Target Entity"
                  ++ "'. (ID: " ++ pyStrOpt (aget rel "id") ++ ")")
                  ++ "\nAttributes: " ++ jsonDumps ((aget rel "attributes").getD (prim pnull))
              else
                "Relationship: '" ++ "Unknown Source Entity" ++ "' "
                  ++ getStrD rel "label" "RELATED_TO" ++ " '"
                  ++ getStrD te "text" "Unknown Target Entity"
                  ++ "'. (ID: " ++ pyStrOpt (aget rel "id") ++ ")"))
    ∧ (∀ se, aget em (idKey sv) = some se → aget em (idKey tv) = none →
        createRelationshipDescription rel em =
          .ok (if truthyOpt (aget rel "attributes") = true then
                ("Relationship: '" ++ getStrD se "text" "Unknown Source Entity" ++ "' "
                  ++ getStrD rel "label" "RELATED_TO" ++ " '" ++ "Unknown Target Entity"
                  ++ "'. (ID: " ++ pyStrOpt (aget rel "id") ++ ")")
                  ++ "\nAttributes: " ++ jsonDumps ((aget rel "attributes").getD (prim pnull))
              else
                "Relationship: '" ++ getStrD se "text" "Unknown Source Entity" ++ "' "
                  ++ getStrD rel "label" "RELATED_TO" ++ " '" ++ "Unknown Target Entity"
                  ++ "'. (ID: " ++ pyStrOpt (aget rel "id") ++ ")")) := by
  refine ⟨⟨_, createRelDesc_eq rel em sv tv hs ht⟩, ?_, ?_, ?_⟩
  · intro hsm htm
    rw [createRelDesc_eq rel em sv tv hs ht]
    simp only [hsm, htm]
  · intro te hsm htm
    rw [createRelDesc_eq rel em sv tv hs ht]
    simp only [hsm, htm]
  · intro se hsm htm
    rw [createRelDesc_eq rel em sv tv hs ht]
    simp only [hsm, htm]

/-- Witness for C8: with an empty lookup map, the description of `sampleRel`
is rendered with both placeholders and no exception. -/
theorem relationship_description_placeholders_witness :
    (createRelationshipDescription sampleRel []).isOk = true
    ∧ createRelationshipDescription sampleRel [] =
        .ok "Relationship: 'Unknown Source Entity' KNOWS 'Unknown Target Entity'. (ID: r1)" := by
  have h := relationship_description_placeholders sampleRel []
    (prim (pstr "e1")) (prim (pstr "e1")) (by decide) (by decide)
  have h2 := h.2.1 (by decide) (by decide)
  constructor
  · obtain ⟨d, hd⟩ := h.1
    rw [hd]
    rfl
  · rw [h2]
    decide

/-- A successful description comprehension yields one text per relationship. -/
theorem relDescriptionTexts_length (em : List (String × PyDict)) :
    ∀ (rs : List PyDict) (ts : List String),
      relDescriptionTexts em rs = .ok ts → ts.length = rs.length := by
  intro rs
  induction rs with
  | nil =>
    intro ts h
    simp only [relDescriptionTexts] at h
    cases h
    rfl
  | cons r rest ih =>
    intro ts h
    simp only [relDescriptionTexts, bind, Except.bind] at h
    cases hd : createRelationshipDescription r em with
    | error msg => rw [hd] at h; cases h
    | ok t =>
      rw [hd] at h
      cases hrest : relDescriptionTexts em rest with
      | error msg => rw [hrest] at h; cases h
      | ok ts' =>
        rw [hrest] at h
        simp only [pure, Except.pure] at h
        cases h
        simp [ih ts' hrest]

/-- The first component of a `zip3` element comes from the first list. -/
theorem mem_zip3_fst {α β γ : Type} :
    ∀ (a : List α) (b : List β) (c : List γ) (x : α × β × γ),
      x ∈ zip3 a b c → x.1 ∈ a := by
  intro a
  induction a with
  | nil => intro b c x h; cases b <;> cases c <;> simp [zip3] at h
  | cons ha ta ih =>
    intro b c x h
    cases b with
    | nil => simp [zip3] at h
    | cons hb tb =>
      cases c with
      | nil => simp [zip3] at h
      | cons hc tc =>
        simp only [zip3, List.mem_cons] at h
        cases h with
        | inl h => rw [h]; exact List.mem_cons_self ..
        | inr h => exact List.mem_cons_of_mem _ (ih tb tc x h)

/-- `zip` over three equal-length lists keeps the length. -/
theorem zip3_length_eq {α β γ : Type} :
    ∀ (a : List α) (b : List β) (c : List γ),
      b.length = a.length → c.length = a.length → (zip3 a b c).length = a.length := by
  intro a
  induction a with
  | nil => intro b c _ _; cases b <;> cases c <;> rfl
  | cons ha ta ih =>
    intro b c hb hc
    cases b with
    | nil => cases hb
    | cons hb' tb =>
      cases c with
      | nil => cases hc
      | cons hc' tc =>
        simp only [List.length_cons, Nat.succ.injEq] at hb hc
        simp [zip3, ih tb tc hb hc]

/-- If every zipped entity carries an `id`, the assembly loop counts them all. -/
theorem assembleEntityItems_count :
    ∀ (l : List (PyDict × String × List Int)),
      (∀ x ∈ l, (aget x.1 "id").isSome = true) →
      (assembleEntityItems l).2 = l.length := by
  intro l
  induction l with
  | nil => intro _; rfl
  | cons hd tl ih =>
    intro h
    obtain ⟨idv, hidv⟩ := Option.isSome_iff_exists.mp (h hd (List.mem_cons_self ..))
    simp only [assembleEntityItems, hidv]
    simp [ih (fun x hx => h x (List.mem_cons_of_mem _ hx))]

/-- If every zipped relationship carries an `id`, the assembly loop counts
them all. -/
theorem assembleRelationshipItems_count :
    ∀ (l : List (PyDict × String × List Int)),
      (∀ x ∈ l, (aget x.1 "id").isSome = true) →
      (assembleRelationshipItems l).2 = l.length := by
  intro l
  induction l with
  | nil => intro _; rfl
  | cons hd tl ih =>
    intro h
    obtain ⟨idv, hidv⟩ := Option.isSome_iff_exists.mp (h hd (List.mem_cons_self ..))
    simp only [assembleRelationshipItems, hidv]
    simp [ih (fun x hx => h x (List.mem_cons_of_mem _ hx))]

/-- C6: when embedding succeeded for both kinds, `store_embeddings` returns
per-kind processed counts equal to the input sizes regardless of the vector
store's behavior: the bulk `add_items` outcome — including a raise — is
swallowed, and the returned counts reflect embedding success only. -/
theorem store_embeddings_counts_despite_db_failure
    (embedB : List String → Except String (List (List Int)))
    (addItems addItems2 : List DBItem → Except String Unit)
    (es rs : List PyDict) (em : List (String × PyDict))
    (evs rvs : List (List Int)) (rtexts : List String)
    (hE : embedB (es.map createEntityDescription) = .ok evs)
    (hEl : evs.length = es.length)
    (hids : ∀ e ∈ es, (aget e "id").isSome = true)
    (hRdesc : relDescriptionTexts em rs = .ok rtexts)
    (hR : embedB rtexts = .ok rvs)
    (hRl : rvs.length = rs.length)
    (hrids : ∀ r ∈ rs, (aget r "id").isSome = true) :
    store_embeddings embedB addItems es rs em = .ok ⟨es.length, rs.length⟩
    ∧ store_embeddings embedB addItems es rs em
        = store_embeddings embedB addItems2 es rs em := by
  have hrtl : rtexts.length = rs.length := relDescriptionTexts_length em rs rtexts hRdesc
  have key : ∀ aI : List DBItem → Except String Unit,
      store_embeddings embedB aI es rs em = .ok ⟨es.length, rs.length⟩ := by
    intro aI
    have hidsz : ∀ x ∈ zip3 es (es.map createEntityDescription) evs,
        (aget x.1 "id").isSome = true :=
      fun x hx => hids x.1 (mem_zip3_fst es _ evs x hx)
    have hidszR : ∀ x ∈ zip3 rs rtexts rvs, (aget x.1 "id").isSome = true :=
      fun x hx => hrids x.1 (mem_zip3_fst rs _ rvs x hx)
    have hcE : (assembleEntityItems
        (zip3 es (es.map createEntityDescription) evs)).2 = es.length := by
      rw [assembleEntityItems_count _ hidsz,
        zip3_length_eq es _ evs (List.length_map ..) hEl]
    have hcR : (assembleRelationshipItems (zip3 rs rtexts rvs)).2 = rs.length := by
      rw [assembleRelationshipItems_count _ hidszR, zip3_length_eq rs _ rvs hrtl hRl]
    have heqE : assembleEntityItems (zip3 es (es.map createEntityDescription) evs)
        = ((assembleEntityItems (zip3 es (es.map createEntityDescription) evs)).1,
           es.length) := by
      rw [← hcE]
    have heqR : assembleRelationshipItems (zip3 rs rtexts rvs)
        = ((assembleRelationshipItems (zip3 rs rtexts rvs)).1, rs.length) := by
      rw [← hcR]
    cases es with
    | nil =>
      cases rs with
      | nil =>
        simp [store_embeddings, pure, Except.pure, bind, Except.bind]
      | cons r rest =>
        unfold store_embeddings
        simp only [List.isEmpty_cons, List.isEmpty_nil, Bool.false_eq_true,
          if_false, if_true, hRdesc, bind, Except.bind, hR]
        rw [heqR]
        simp [pure, Except.pure]
    | cons e est =>
      cases rs with
      | nil =>
        unfold store_embeddings
        simp only [List.isEmpty_cons, List.isEmpty_nil, Bool.false_eq_true,
          if_false, if_true, hE]
        rw [heqE]
        simp [pure, Except.pure, bind, Except.bind]
      | cons r rest =>
        unfold store_embeddings
        simp only [List.isEmpty_cons, List.isEmpty_nil, Bool.false_eq_true,
          if_false, if_true, hE, hRdesc, bind, Except.bind, hR]
        rw [heqE, heqR]
        simp [pure, Except.pure]
  exact ⟨key addItems, (key addItems).trans (key addItems2).symm⟩

/-- Witness for C6: two entities and one relationship are reported as
`{entities_processed: 2, relationships_processed: 1}` although the
vector-store upsert raised, and the result equals the one produced with a
healthy vector store. -/
theorem store_embeddings_counts_witness :
    store_embeddings witEmbedB witDbFail [sampleOld, sampleNew] [sampleRel] []
      = .ok ⟨2, 1⟩
    ∧ store_embeddings witEmbedB witDbFail [sampleOld, sampleNew] [sampleRel] []
      = store_embeddings witEmbedB witDbOk [sampleOld, sampleNew] [sampleRel] [] := by
  have h := store_embeddings_counts_despite_db_failure witEmbedB witDbFail witDbOk
    [sampleOld, sampleNew] [sampleRel] []
    (([sampleOld, sampleNew].map createEntityDescription).map (fun _ => ([0] : List Int)))
    ((["Relationship: 'Unknown Source Entity' KNOWS 'Unknown Target Entity'. (ID: r1)"].map
        (fun _ => ([0] : List Int))))
    ["Relationship: 'Unknown Source Entity' KNOWS 'Unknown Target Entity'. (ID: r1)"]
    rfl (by simp) (by decide) (by decide) rfl (by simp) (by decide)
  exact ⟨h.1, h.2⟩

/-- Totality of the code-point lexicographic order. -/
theorem charsLe_total : ∀ a b : List Char, charsLe a b = true ∨ charsLe b a = true := by
  intro a
  induction a with
  | nil => intro b; left; rfl
  | cons x xs ih =>
    intro b
    cases b with
    | nil => right; rfl
    | cons y ys =>
      by_cases hxy : x = y
      · subst hxy
        simp only [charsLe, if_pos]
        exact ih ys
      · rcases lt_or_gt_of_ne hxy with hlt | hgt
        · left
          simp [charsLe, hxy]
          exact hlt
        · right
          have hyx : ¬ y = x := fun hh => hxy hh.symm
          simp [charsLe, hyx]
          exact hgt

/-- Transitivity of the code-point lexicographic order. -/
theorem charsLe_trans :
    ∀ a b c : List Char, charsLe a b = true → charsLe b c = true → charsLe a c = true := by
  intro a
  induction a with
  | nil => intro b c _ _; rfl
  | cons x xs ih =>
    intro b c h1 h2
    cases b with
    | nil => simp [charsLe] at h1
    | cons y ys =>
      cases c with
      | nil => simp [charsLe] at h2
      | cons z zs =>
        by_cases hxy : x = y <;> by_cases hyz : y = z
        · subst hxy; subst hyz
          simp [charsLe] at h1 h2 ⊢
          exact ih ys zs h1 h2
        · subst hxy
          simp [charsLe, hyz] at h2
          simp [charsLe, hyz]
          exact h2
        · subst hyz
          simp [charsLe, hxy] at h1
          simp [charsLe, hxy]
          exact h1
        · simp [charsLe, hxy] at h1
          simp [charsLe, hyz] at h2
          have hxz : x < z := lt_trans h1 h2
          simp [charsLe, ne_of_lt hxz]
          exact hxz

/-- Antisymmetry of the code-point lexicographic order. -/
theorem charsLe_antisymm :
    ∀ a b : List Char, charsLe a b = true → charsLe b a = true → a = b := by
  intro a
  induction a with
  | nil =>
    intro b _ h2
    cases b with
    | nil => rfl
    | cons y ys => simp [charsLe] at h2
  | cons x xs ih =>
    intro b h1 h2
    cases b with
    | nil => simp [charsLe] at h1
    | cons y ys =>
      by_cases hxy : x = y
      · subst hxy
        simp [charsLe] at h1 h2
        rw [ih ys h1 h2]
      · have hyx : ¬ y = x := fun hh => hxy hh.symm
        simp [charsLe, hxy] at h1
        simp [charsLe, hyx] at h2
        exact absurd h2 (not_lt_of_gt h1)

/-- Antisymmetry of the string order used by `sort_keys=True`. -/
theorem strLe_antisymm (a b : String) (h1 : strLe a b = true) (h2 : strLe b a = true) :
    a = b := by
  apply String.ext
  exact charsLe_antisymm a.data b.data h1 h2

/-- Two attribute lists holding the same key/value pairs (a permutation, with
no duplicate keys) sort to the same canonical list. -/
theorem sortByKey_eq_of_perm {l₁ l₂ : List (String × JPrim)} (hp : l₁.Perm l₂)
    (hnd : (l₁.map Prod.fst).Nodup) : sortByKey l₁ = sortByKey l₂ := by
  haveI hTot : IsTotal (String × JPrim) (fun a b => strLe a.1 b.1 = true) :=
    ⟨fun a b => charsLe_total a.1.data b.1.data⟩
  haveI hTrans : IsTrans (String × JPrim) (fun a b => strLe a.1 b.1 = true) :=
    ⟨fun a b c h1 h2 => charsLe_trans a.1.data b.1.data c.1.data h1 h2⟩
  have hperm : (sortByKey l₁).Perm (sortByKey l₂) :=
    (List.perm_insertionSort _ l₁).trans (hp.trans (List.perm_insertionSort _ l₂).symm)
  have hs₁ : List.Sorted (fun a b => strLe a.1 b.1 = true) (sortByKey l₁) :=
    List.sorted_insertionSort _ l₁
  have hs₂ : List.Sorted (fun a b => strLe a.1 b.1 = true) (sortByKey l₂) :=
    List.sorted_insertionSort _ l₂
  have hps₁ : (sortByKey l₁).Perm l₁ := List.perm_insertionSort _ l₁
  have hnd₁ : ((sortByKey l₁).map Prod.fst).Nodup :=
    ((hps₁.map Prod.fst).symm).nodup hnd
  have hnd₂ : ((sortByKey l₂).map Prod.fst).Nodup :=
    ((hperm.map Prod.fst)).nodup hnd₁
  have hne₁ : List.Pairwise (fun a b : String × JPrim => a.1 ≠ b.1) (sortByKey l₁) :=
    (List.pairwise_map).mp hnd₁
  have hne₂ : List.Pairwise (fun a b : String × JPrim => a.1 ≠ b.1) (sortByKey l₂) :=
    (List.pairwise_map).mp hnd₂
  haveI : IsAntisymm (String × JPrim)
      (fun a b => strLe a.1 b.1 = true ∧ a.1 ≠ b.1) :=
    ⟨fun a b h1 h2 => absurd (strLe_antisymm a.1 b.1 h1.1 h2.1) h1.2⟩
  exact List.eq_of_perm_of_sorted hperm (hs₁.and hne₁) (hs₂.and hne₂)

/-- Canonical JSON serialization is invariant under attribute insertion
order. -/
theorem jsonDumpsObj_eq_of_perm {l₁ l₂ : List (String × JPrim)} (hp : l₁.Perm l₂)
    (hnd : (l₁.map Prod.fst).Nodup) : jsonDumpsObj l₁ = jsonDumpsObj l₂ := by
  unfold jsonDumpsObj
  rw [sortByKey_eq_of_perm hp hnd]

/-- C7: description synthesis is deterministic in the logical input: entity
(and relationship) records whose fields are equal and whose attribute maps
hold the same key/value pairs — in any insertion order — synthesize
byte-identical descriptions, because attribute keys are sorted
lexicographically before serialization. -/
theorem description_determinism
    (e1 e2 : PyDict) (a1 a2 : List (String × JPrim))
    (ht : aget e1 "text" = aget e2 "text")
    (hl : aget e1 "label" = aget e2 "label")
    (ha1 : aget e1 "attributes" = some (.obj a1))
    (ha2 : aget e2 "attributes" = some (.obj a2))
    (hperm : a1.Perm a2)
    (hnd : (a1.map Prod.fst).Nodup)
    (r1 r2 : PyDict) (em : List (String × PyDict)) (sv tv : JValue)
    (b1 b2 : List (String × JPrim))
    (hs1 : aget r1 "source_entity_id" = some sv)
    (hs2 : aget r2 "source_entity_id" = some sv)
    (ht1 : aget r1 "target_entity_id" = some tv)
    (ht2 : aget r2 "target_entity_id" = some tv)
    (hrl : aget r1 "label" = aget r2 "label")
    (hri : aget r1 "id" = aget r2 "id")
    (hb1 : aget r1 "attributes" = some (.obj b1))
    (hb2 : aget r2 "attributes" = some (.obj b2))
    (hpermB : b1.Perm b2)
    (hndB : (b1.map Prod.fst).Nodup) :
    createEntityDescription e1 = createEntityDescription e2
    ∧ createRelationshipDescription r1 em = createRelationshipDescription r2 em := by
  have hjson : jsonDumps (.obj a1) = jsonDumps (.obj a2) := by
    simp only [jsonDumps]
    exact jsonDumpsObj_eq_of_perm hperm hnd
  have hjsonB : jsonDumps (.obj b1) = jsonDumps (.obj b2) := by
    simp only [jsonDumps]
    exact jsonDumpsObj_eq_of_perm hpermB hndB
  have hempB : b1.isEmpty = b2.isEmpty := by
    cases hc1 : b1 with
    | nil =>
      cases hc2 : b2 with
      | nil => rfl
      | cons hh tt =>
        rw [hc1, hc2] at hpermB
        simpa using hpermB.length_eq
    | cons hh tt =>
      cases hc2 : b2 with
      | nil =>
        rw [hc1, hc2] at hpermB
        simpa using hpermB.length_eq
      | cons hh' tt' => rfl
  constructor
  · unfold createEntityDescription getStrD
    rw [ht, hl, ha1, ha2]
    simp only [hjson]
  · rw [createRelDesc_eq r1 em sv tv hs1 ht1, createRelDesc_eq r2 em sv tv hs2 ht2]
    unfold getStrD
    rw [hrl, hri, hb1, hb2]
    simp only [truthyOpt, truthy, hempB, Option.getD, hjsonB]

/-- Witness for C7 at records whose attribute maps differ only in insertion
order. -/
theorem description_determinism_witness :
    createEntityDescription eOrder1 = createEntityDescription eOrder2
    ∧ createRelationshipDescription rOrder1 [] = createRelationshipDescription rOrder2 [] :=
  description_determinism eOrder1 eOrder2
    [("role", pstr "Engineer"), ("email", pstr "a@x")]
    [("email", pstr "a@x"), ("role", pstr "Engineer")]
    (by decide) (by decide) (by decide) (by decide) (by decide) (by decide)
    rOrder1 rOrder2 [] (prim (pstr "e1")) (prim (pstr "e2"))
    [("confidence", pnum 1), ("note", pstr "x")]
    [("note", pstr "x"), ("confidence", pnum 1)]
    (by decide) (by decide) (by decide) (by decide) (by decide) (by decide)
    (by decide) (by decide) (by decide) (by decide)

/-- `build_or_update_graph` runs the three phases in order: clear the
session, add all entities, then add all relationships against the
post-entity store. -/
theorem build_or_update_graph_eq (s : KGStore) (es rs : List PyDict) :
    build_or_update_graph s es rs =
      ((add_relationships_to_graph
          (add_entities_to_graph (clear_session_tracking s) es).1 rs).1,
       ⟨(add_entities_to_graph (clear_session_tracking s) es).2,
        (add_relationships_to_graph
          (add_entities_to_graph (clear_session_tracking s) es).1 rs).2⟩) := by
  rfl

/-- At most one id per input relationship is returned. -/
theorem add_relationships_length_le :
    ∀ (rs : List PyDict) (s : KGStore),
      (add_relationships_to_graph s rs).2.length ≤ rs.length := by
  intro rs
  induction rs with
  | nil => intro s; simp [add_relationships_to_graph]
  | cons r rest ih =>
    intro s
    cases h : add_edge s r with
    | ok x =>
      obtain ⟨s', eid, rcd⟩ := x
      rw [add_relationships_step s s' r rcd eid rest h]
      simpa using Nat.succ_le_succ (ih s')
    | error msg =>
      have hnot : ¬ (endpointPresent s (aget r "source_entity_id") = true ∧
          endpointPresent s (aget r "target_entity_id") = true) := by
        intro hc
        obtain ⟨x, hx⟩ := (add_edge_ok_iff s r).mpr hc
        rw [h] at hx
        cases hx
      rw [add_relationships_skip s r rest hnot]
      exact le_trans (ih s) (Nat.le_succ _)

/-- C5: `build_or_update_graph` always runs the batch to completion —
in this embedding both phases are total functions, so no exception can
escape — processing entities before relationships; no entity is ever
skipped (`add_node` cannot fail); a relationship whose `add_edge` fails is
caught and skipped, leaving the store and the id list untouched while the
rest of the batch continues; a relationship whose `add_edge` succeeds
contributes exactly its edge id; hence the returned lists hold exactly the
ids of the successfully applied items. -/
theorem batch_partial_failure_policy (s : KGStore) (es rs : List PyDict)
    (r : PyDict) (rest : List PyDict) :
    ((build_or_update_graph s es rs).2.added_nodes.length = es.length)
    ∧ ((build_or_update_graph s es rs).2.added_nodes
        = (add_entities_to_graph (clear_session_tracking s) es).2)
    ∧ ((build_or_update_graph s es rs).2.added_edges
        = (add_relationships_to_graph
            (add_entities_to_graph (clear_session_tracking s) es).1 rs).2)
    ∧ ((build_or_update_graph s es rs).2.added_edges.length ≤ rs.length)
    ∧ (¬ (endpointPresent s (aget r "source_entity_id") = true ∧
          endpointPresent s (aget r "target_entity_id") = true) →
        add_relationships_to_graph s (r :: rest) = add_relationships_to_graph s rest)
    ∧ ((endpointPresent s (aget r "source_entity_id") = true ∧
        endpointPresent s (aget r "target_entity_id") = true) →
        ∃ s' eid rcd, add_edge s r = .ok (s', eid, rcd)
          ∧ add_relationships_to_graph s (r :: rest)
              = ((add_relationships_to_graph s' rest).1,
                 eid :: (add_relationships_to_graph s' rest).2)) := by
  refine ⟨?_, ?_, ?_, ?_, ?_, ?_⟩
  · rw [build_or_update_graph_eq]
    exact add_entities_to_graph_length _ es
  · rw [build_or_update_graph_eq]
  · rw [build_or_update_graph_eq]
  · rw [build_or_update_graph_eq]
    exact add_relationships_length_le rs _
  · exact add_relationships_skip s r rest
  · intro hc
    obtain ⟨x, hx⟩ := (add_edge_ok_iff s r).mpr hc
    obtain ⟨s', eid, rcd⟩ := x
    exact ⟨s', eid, rcd, hx, add_relationships_step s s' r rcd eid rest hx⟩

/-- Witness for C5: the end-to-end scenario completes with both entities and
the valid relationship applied, a dangling relationship is skipped while the
batch continues, and a valid one contributes its id. -/
theorem batch_partial_failure_policy_witness :
    (build_or_update_graph KGStore.init [entA, entB] [relAB, badSourceRel]).2.added_nodes.length
      = 2
    ∧ (build_or_update_graph KGStore.init [entA, entB] [relAB, badSourceRel]).2.added_edges.length
      ≤ 2
    ∧ add_relationships_to_graph sampleStore (badSourceRel :: [sampleRel])
      = add_relationships_to_graph sampleStore [sampleRel]
    ∧ (build_or_update_graph KGStore.init [entA, entB] [relAB, badSourceRel]).2
      = ⟨["e1", "e2"], ["r1"]⟩ := by
  have h := batch_partial_failure_policy KGStore.init [entA, entB] [relAB, badSourceRel]
    badSourceRel [sampleRel]
  have h2 := batch_partial_failure_policy sampleStore [] [] badSourceRel [sampleRel]
  exact ⟨h.1, h.2.2.2.1, h2.2.2.2.2.1 (by decide), by decide⟩
